import Mathlib

/-!
Shallow embedding of the molarity calculator (`src/main.cpp`).

Quantities are indexed by `Fin 5`, following `row_header` and `RowEnum`:
index 0 = Mass (`RowEnum::mass = 1`), index 1 = Molar mass
(`RowEnum::molar_mass = 2`), index 2 = Moles (`RowEnum::moles = 4`),
index 3 = Volume (`RowEnum::volume = 8`), index 4 = Molarity
(`RowEnum::molarity = 16`).  A C++ bitmask with bit `i` set is modelled as
a `Finset (Fin 5)` containing `i`.

Numeric state lives in `ℚ`.  Each number-input field holds `none` (empty
text; `atof` also turns unparseable text into `0`, which behaves like an
absent value everywhere) or `some v` for text parsing to the rational `v`.
-/

namespace MolarityCalc

/-- The static registry `units_vector`: for each quantity, its list of
(label, factor-to-canonical-unit) pairs.  The iteration order of the C++
`std::map` (which orders `const char*` keys by pointer) is irrelevant to
behaviour because labels are unique within each quantity. -/
def units_vector : Fin 5 → List (String × ℚ) :=
  ![[("milligrams", 1/1000), ("micrograms", 1/1000000), ("nanograms", 1/1000000000),
     ("grams", 1), ("kilograms", 1000)],
    [("/g/mol", 1), ("/mg/mol", 1/1000), ("/g/mmol", 1000)],
    [("mol", 1), ("mmol", 1/1000), ("umol", 1/1000000)],
    [("mL", 1/1000), ("uL", 1/1000000), ("nL", 1/1000000000), ("L", 1)],
    [("mM", 1/1000), ("uM", 1/1000000), ("nM", 1/1000000000), ("pM", 1/1000000000000),
     ("M", 1)]]

/-- First registry entry of quantity `q` whose label equals `label`
(the `strcmp`-based lookup loop shared by `Calculator::get_value` and
`Calculator::set_value`), projected to its scale factor. -/
def lookup_scale (q : Fin 5) (label : String) : Option ℚ :=
  ((units_vector q).find? (fun e => e.1 == label)).map (fun e => e.2)

/-- Display classification of a row label.  The C++ code always pairs
red/green/blue with a bold font and black with the normal font, so the
colour alone determines the classification. -/
inductive Colour
  | black
  | green
  | red
  | blue
  deriving DecidableEq

/-- The form state `calculate_cb` reads and writes: per row, the
number-field content (`none` = empty text), the selected unit label and
the current label colour. -/
structure FormState where
  texts : Fin 5 → Option ℚ
  unitSel : Fin 5 → String
  colours : Fin 5 → Colour

/-- `Calculator::get_value`: parse the field (empty text = 0) and multiply
by the factor of the selected unit.  When the selected label matches no
registry entry, the C++ loop runs off the end of a non-void function
without returning (undefined behaviour); that case is modelled as `none`. -/
def get_value (s : FormState) (q : Fin 5) : Option ℚ :=
  (lookup_scale q (s.unitSel q)).map (fun sc => sc * ((s.texts q).getD 0))

/-- The numeric conversion loop inside `Calculator::set_value`: divide by
the factor of every registry entry whose label matches the selected one
(at most one, since labels are unique).  An unknown label leaves the value
unchanged. -/
def set_value_conv (q : Fin 5) (label : String) (v : ℚ) : ℚ :=
  (units_vector q).foldl (fun acc e => if e.1 == label then acc / e.2 else acc) v

/-- `Calculator::set_value(q, v, empty)`: write the display form of the
canonical value `v` into row `q`, or blank the field when `empty` is set. -/
def set_value (units : Fin 5 → String) (t : Fin 5 → Option ℚ) (q : Fin 5) (v : ℚ)
    (empty : Bool) : Fin 5 → Option ℚ :=
  if empty then Function.update t q none
  else Function.update t q (some (set_value_conv q (units q) v))

/-- The doubling loop of `calculate_cb` computing `current_enum = 1 << p`. -/
def current_enum : ℕ → ℕ
  | 0 => 1
  | n + 1 => current_enum n + current_enum n

/-- The set of rows whose bit is set in a C++ bitmask, exactly as
`set_colour` walks the binary digits of its argument. -/
def mask_rows (m : ℕ) : Finset (Fin 5) :=
  Finset.univ.filter (fun i => m.testBit i.val)

/-- Bitwise xor on row sets (`good_font_condition ^= current_enum`). -/
def xor_rows (a b : Finset (Fin 5)) : Finset (Fin 5) := (a \ b) ∪ (b \ a)

/-- Pre-step of `calculate_cb` on the fields: a nonzero target value blanks
the target field before anything is recomputed. -/
def preclear_texts (t : Fin 5 → Option ℚ) (p : Fin 5) (current : ℚ) : Fin 5 → Option ℚ :=
  if current ≠ 0 then Function.update t p none else t

/-- Pre-step of `calculate_cb` on the green mask: a nonzero target value is
dropped from the used set via `good_font_condition ^= current_enum`. -/
def preclear_good (g : Finset (Fin 5)) (p : Fin 5) (current : ℚ) : Finset (Fin 5) :=
  if current ≠ 0 then xor_rows g (mask_rows (current_enum p.val)) else g

/-- Outcome of one `calculate_cb` run: the final field contents and the
three colour masks, in the order the callback applies them at the end
(green on `good`, then red on `bad`, then blue on `resMask`). -/
structure CalcResult where
  texts : Fin 5 → Option ℚ
  good : Finset (Fin 5)
  bad : Finset (Fin 5)
  resMask : Finset (Fin 5)

/-- The body of `calculate_cb` for target row `p`: read the five rows (and
the target row again as `current`), classify present/absent rows, blank a
non-empty target, then run the five-way `switch` on the target.  The result
is `none` exactly when some selected unit label is missing from the
registry (the undefined-behaviour case of `get_value`). -/
def calculate_cb (s : FormState) (p : Fin 5) : Option CalcResult :=
  (get_value s 0).bind fun mass =>
  (get_value s 1).bind fun molar_mass =>
  (get_value s 2).bind fun moles =>
  (get_value s 3).bind fun volume =>
  (get_value s 4).bind fun molarity =>
  (get_value s p).bind fun current =>
  -- the five ternaries filling good_font_condition / bad_font_condition
  let good0 : Finset (Fin 5) :=
    (if mass ≠ 0 then {0} else ∅) ∪ (if molar_mass ≠ 0 then {1} else ∅) ∪
    (if moles ≠ 0 then {2} else ∅) ∪ (if volume ≠ 0 then {3} else ∅) ∪
    (if molarity ≠ 0 then {4} else ∅)
  let bad0 : Finset (Fin 5) :=
    (if mass ≠ 0 then ∅ else {0}) ∪ (if molar_mass ≠ 0 then ∅ else {1}) ∪
    (if moles ≠ 0 then ∅ else {2}) ∪ (if volume ≠ 0 then ∅ else {3}) ∪
    (if molarity ≠ 0 then ∅ else {4})
  let texts1 := preclear_texts s.texts p current
  let good1 := preclear_good good0 p current
  let u := s.unitSel
  let step : (Fin 5 → Option ℚ) × Finset (Fin 5) × Finset (Fin 5) :=
    match p.val with
    | 0 =>      -- calculate mass
      if molar_mass ≠ 0 then
        if volume ≠ 0 ∧ molarity ≠ 0 then
          (set_value u (set_value u texts1 p (volume * molarity * molar_mass) false)
             2 (volume * molarity) false,
           good1 ∩ {1, 3, 4},   -- molar_mass | volume | molarity
           ∅)
        else if moles ≠ 0 then
          (set_value u texts1 p (moles * molar_mass) false,
           good1 ∩ {1, 2},      -- molar_mass | moles
           bad0)
        else (texts1, good1, bad0)
      else (texts1, good1, bad0 ∩ {1, 3, 4})
    | 1 =>      -- calculate molar mass
      if mass ≠ 0 then
        if volume ≠ 0 ∧ molarity ≠ 0 then
          (set_value u (set_value u texts1 p (mass / (volume * molarity)) false)
             2 (volume * molarity) false,
           good1 ∩ {0, 3, 4},   -- mass | volume | molarity
           ∅)
        else if moles ≠ 0 then
          (set_value u texts1 p (mass / moles) false,
           good1 ∩ {2, 0},      -- moles | mass
           bad0)
        else (texts1, good1, bad0)
      else (texts1, good1, bad0 ∩ {0, 3, 4})
    | 2 =>      -- calculate moles
      if mass ≠ 0 ∧ molar_mass ≠ 0 then
        (set_value u (set_value u (set_value u texts1 p (mass / molar_mass) false)
           3 0 true) 4 0 true,
         good1 ∩ {1, 0},        -- molar_mass | mass
         bad0)
      else if volume ≠ 0 ∧ molarity ≠ 0 then
        (set_value u texts1 p (volume * molarity) false,
         good1 ∩ {4, 3},        -- molarity | volume
         bad0)
      else (texts1, good1, bad0)
    | 3 =>      -- calculate volume
      if molarity ≠ 0 then
        if mass ≠ 0 ∧ molar_mass ≠ 0 then
          (set_value u (set_value u texts1 p ((mass / molar_mass) / molarity) false)
             2 (mass / molar_mass) false,
           good1 ∩ {4, 0, 1},   -- molarity | mass | molar_mass
           ∅)
        else if moles ≠ 0 then
          (set_value u texts1 p (moles / molarity) false,
           good1 ∩ {4, 2},      -- molarity | moles
           bad0)
        else (texts1, good1, bad0)
      else (texts1, good1, bad0 ∩ {4, 0, 1})
    | 4 =>      -- calculate molarity
      if volume ≠ 0 then
        if mass ≠ 0 ∧ molar_mass ≠ 0 then
          (set_value u (set_value u texts1 p ((mass / molar_mass) / volume) false)
             2 (mass / molar_mass) false,
           good1 ∩ {3, 0, 1},   -- volume | mass | molar_mass
           ∅)
        else if moles ≠ 0 then
          (set_value u texts1 p (moles / volume) false,
           good1 ∩ {3, 0},      -- volume | mass  (the source reuses RowEnum::mass here)
           bad0)
        else (texts1, good1, bad0)
      else (texts1, good1, bad0 ∩ {3, 0, 1})
    | _ + 5 =>  -- default: reset colours
      (texts1, ∅, ∅)
  some { texts := step.1, good := step.2.1, bad := step.2.2,
         resMask := mask_rows (current_enum p.val) }

/-- Final colour of row `i`, given the order in which `calculate_cb`
applies `set_colour`: black reset first, then green, red and blue, the
later call overriding the earlier ones. -/
def apply_colours (r : CalcResult) (i : Fin 5) : Colour :=
  if i ∈ r.resMask then Colour.blue
  else if i ∈ r.bad then Colour.red
  else if i ∈ r.good then Colour.green
  else Colour.black

/-- One full `calculate_cb` run as a transformation of the visible form:
new field contents plus the recoloured labels.  Unit selections are
untouched. -/
def calculate_form (s : FormState) (p : Fin 5) : Option FormState :=
  (calculate_cb s p).map fun r =>
    { texts := r.texts, unitSel := s.unitSel, colours := apply_colours r }

/-! ### Instrumented engine

`calculate_cb_checked` is `calculate_cb` with every division the C++ code
performs (the derivation expressions and the per-entry division inside
`set_value`) routed through `checked_div`, which fails on a zero
denominator.  Agreement with `calculate_cb` proves no division by zero is
reachable. -/

/-- Division that fails on a zero denominator. -/
def checked_div (a b : ℚ) : Option ℚ := if b = 0 then none else some (a / b)

/-- `set_value_conv` with the per-entry division checked. -/
def set_value_conv_checked (q : Fin 5) (label : String) (v : ℚ) : Option ℚ :=
  (units_vector q).foldl
    (fun acc e => acc.bind fun a => if e.1 == label then checked_div a e.2 else some a)
    (some v)

/-- `set_value` with the conversion division checked. -/
def set_value_checked (units : Fin 5 → String) (t : Fin 5 → Option ℚ) (q : Fin 5) (v : ℚ)
    (empty : Bool) : Option (Fin 5 → Option ℚ) :=
  if empty then some (Function.update t q none)
  else (set_value_conv_checked q (units q) v).map fun x => Function.update t q (some x)

/-- `calculate_cb` with all divisions checked: `none` when a selected unit
label is unknown or a division by zero is attempted. -/
def calculate_cb_checked (s : FormState) (p : Fin 5) : Option CalcResult :=
  (get_value s 0).bind fun mass =>
  (get_value s 1).bind fun molar_mass =>
  (get_value s 2).bind fun moles =>
  (get_value s 3).bind fun volume =>
  (get_value s 4).bind fun molarity =>
  (get_value s p).bind fun current =>
  let good0 : Finset (Fin 5) :=
    (if mass ≠ 0 then {0} else ∅) ∪ (if molar_mass ≠ 0 then {1} else ∅) ∪
    (if moles ≠ 0 then {2} else ∅) ∪ (if volume ≠ 0 then {3} else ∅) ∪
    (if molarity ≠ 0 then {4} else ∅)
  let bad0 : Finset (Fin 5) :=
    (if mass ≠ 0 then ∅ else {0}) ∪ (if molar_mass ≠ 0 then ∅ else {1}) ∪
    (if moles ≠ 0 then ∅ else {2}) ∪ (if volume ≠ 0 then ∅ else {3}) ∪
    (if molarity ≠ 0 then ∅ else {4})
  let texts1 := preclear_texts s.texts p current
  let good1 := preclear_good good0 p current
  let u := s.unitSel
  let step : Option ((Fin 5 → Option ℚ) × Finset (Fin 5) × Finset (Fin 5)) :=
    match p.val with
    | 0 =>
      if molar_mass ≠ 0 then
        if volume ≠ 0 ∧ molarity ≠ 0 then
          (set_value_checked u texts1 p (volume * molarity * molar_mass) false).bind fun t1 =>
          (set_value_checked u t1 2 (volume * molarity) false).map fun t2 =>
          (t2, good1 ∩ {1, 3, 4}, ∅)
        else if moles ≠ 0 then
          (set_value_checked u texts1 p (moles * molar_mass) false).map fun t1 =>
          (t1, good1 ∩ {1, 2}, bad0)
        else some (texts1, good1, bad0)
      else some (texts1, good1, bad0 ∩ {1, 3, 4})
    | 1 =>
      if mass ≠ 0 then
        if volume ≠ 0 ∧ molarity ≠ 0 then
          (checked_div mass (volume * molarity)).bind fun d1 =>
          (set_value_checked u texts1 p d1 false).bind fun t1 =>
          (set_value_checked u t1 2 (volume * molarity) false).map fun t2 =>
          (t2, good1 ∩ {0, 3, 4}, ∅)
        else if moles ≠ 0 then
          (checked_div mass moles).bind fun d1 =>
          (set_value_checked u texts1 p d1 false).map fun t1 =>
          (t1, good1 ∩ {2, 0}, bad0)
        else some (texts1, good1, bad0)
      else some (texts1, good1, bad0 ∩ {0, 3, 4})
    | 2 =>
      if mass ≠ 0 ∧ molar_mass ≠ 0 then
        (checked_div mass molar_mass).bind fun d1 =>
        (set_value_checked u texts1 p d1 false).bind fun t1 =>
        (set_value_checked u t1 3 0 true).bind fun t2 =>
        (set_value_checked u t2 4 0 true).map fun t3 =>
        (t3, good1 ∩ {1, 0}, bad0)
      else if volume ≠ 0 ∧ molarity ≠ 0 then
        (set_value_checked u texts1 p (volume * molarity) false).map fun t1 =>
        (t1, good1 ∩ {4, 3}, bad0)
      else some (texts1, good1, bad0)
    | 3 =>
      if molarity ≠ 0 then
        if mass ≠ 0 ∧ molar_mass ≠ 0 then
          (checked_div mass molar_mass).bind fun d1 =>
          (checked_div d1 molarity).bind fun d2 =>
          (set_value_checked u texts1 p d2 false).bind fun t1 =>
          (checked_div mass molar_mass).bind fun d3 =>
          (set_value_checked u t1 2 d3 false).map fun t2 =>
          (t2, good1 ∩ {4, 0, 1}, ∅)
        else if moles ≠ 0 then
          (checked_div moles molarity).bind fun d1 =>
          (set_value_checked u texts1 p d1 false).map fun t1 =>
          (t1, good1 ∩ {4, 2}, bad0)
        else some (texts1, good1, bad0)
      else some (texts1, good1, bad0 ∩ {4, 0, 1})
    | 4 =>
      if volume ≠ 0 then
        if mass ≠ 0 ∧ molar_mass ≠ 0 then
          (checked_div mass molar_mass).bind fun d1 =>
          (checked_div d1 volume).bind fun d2 =>
          (set_value_checked u texts1 p d2 false).bind fun t1 =>
          (checked_div mass molar_mass).bind fun d3 =>
          (set_value_checked u t1 2 d3 false).map fun t2 =>
          (t2, good1 ∩ {3, 0, 1}, ∅)
        else if moles ≠ 0 then
          (checked_div moles volume).bind fun d1 =>
          (set_value_checked u texts1 p d1 false).map fun t1 =>
          (t1, good1 ∩ {3, 0}, bad0)
        else some (texts1, good1, bad0)
      else some (texts1, good1, bad0 ∩ {3, 0, 1})
    | _ + 5 => some (texts1, ∅, ∅)
  step.map fun st =>
    { texts := st.1, good := st.2.1, bad := st.2.2,
      resMask := mask_rows (current_enum p.val) }

/-- Canonical unit labels (scale factor 1) for the five rows. -/
def canonLabels : Fin 5 → String := !["grams", "/g/mol", "mol", "L", "M"]

/-- All labels black, the initial state of the form. -/
def blackLabels : Fin 5 → Colour := fun _ => Colour.black

/-! ### Registry and conversion lemmas -/

/-- Every scale factor in the registry is positive. -/
lemma units_vector_pos (q : Fin 5) : ∀ e ∈ units_vector q, (0 : ℚ) < e.2 := by
  fin_cases q <;> norm_num [units_vector, List.forall_mem_cons]

/-- Within one quantity, registry labels are pairwise distinct. -/
lemma units_vector_labels_unique (q : Fin 5) :
    (units_vector q).Pairwise (fun a b => a.1 ≠ b.1) := by
  fin_cases q <;> simp [units_vector, List.pairwise_cons]

/-- A scale factor found in the registry is positive. -/
lemma lookup_scale_pos {q : Fin 5} {label : String} {sc : ℚ}
    (h : lookup_scale q label = some sc) : 0 < sc := by
  unfold lookup_scale at h
  rcases hf : (units_vector q).find? (fun e => e.1 == label) with _ | e
  · rw [hf] at h; simp at h
  · rw [hf] at h
    simp at h
    subst h
    exact units_vector_pos q e (List.mem_of_find?_eq_some hf)

/-- If no entry matches the label, the `set_value` fold leaves the value
unchanged. -/
lemma foldl_conv_of_find?_none (label : String) :
    ∀ (L : List (String × ℚ)) (v : ℚ), L.find? (fun e => e.1 == label) = none →
      L.foldl (fun acc e => if e.1 == label then acc / e.2 else acc) v = v := by
  intro L
  induction L with
  | nil => intro v _; rfl
  | cons a L ih =>
    intro v h
    rw [List.find?_cons] at h
    cases hc : (a.1 == label) with
    | true => rw [hc] at h; exact absurd h (by simp)
    | false =>
      rw [hc] at h
      rw [List.foldl_cons]
      simp only [hc, Bool.false_eq_true, if_false]
      exact ih v h

/-- If the first matching entry is `e` and labels are unique, the
`set_value` fold divides exactly once, by `e`'s factor. -/
lemma foldl_conv_of_find?_some (label : String) :
    ∀ (L : List (String × ℚ)) (v : ℚ) (e : String × ℚ),
      L.find? (fun x => x.1 == label) = some e →
      L.Pairwise (fun a b => a.1 ≠ b.1) →
      L.foldl (fun acc x => if x.1 == label then acc / x.2 else acc) v = v / e.2 := by
  intro L
  induction L with
  | nil => intro v e h _; exact absurd h (by simp)
  | cons a L ih =>
    intro v e h hp
    rw [List.find?_cons] at h
    rw [List.foldl_cons]
    cases hc : (a.1 == label) with
    | true =>
      rw [hc] at h
      have he : a = e := by simpa using h
      subst he
      simp only [hc, if_true]
      have hlab : a.1 = label := by simpa using hc
      have hnone : L.find? (fun x => x.1 == label) = none := by
        rw [List.find?_eq_none]
        intro b hb
        have : a.1 ≠ b.1 := (List.pairwise_cons.mp hp).1 b hb
        simp [← hlab, this, Ne.symm this]
      exact foldl_conv_of_find?_none label L (v / a.2) hnone
    | false =>
      rw [hc] at h
      simp only [hc, Bool.false_eq_true, if_false]
      exact ih v e h (List.pairwise_cons.mp hp).2

/-- `set_value_conv` is division by the looked-up scale factor. -/
lemma set_value_conv_of_lookup {q : Fin 5} {label : String} {sc : ℚ}
    (h : lookup_scale q label = some sc) (v : ℚ) :
    set_value_conv q label v = v / sc := by
  unfold lookup_scale at h
  unfold set_value_conv
  rcases hf : (units_vector q).find? (fun e => e.1 == label) with _ | e
  · rw [hf] at h; simp at h
  · rw [hf] at h
    simp at h
    subst h
    exact foldl_conv_of_find?_some label _ v e hf (units_vector_labels_unique q)

/-- With an unknown label, `set_value_conv` passes the value through. -/
lemma set_value_conv_of_lookup_none {q : Fin 5} {label : String}
    (h : lookup_scale q label = none) (v : ℚ) :
    set_value_conv q label v = v := by
  unfold lookup_scale at h
  exact foldl_conv_of_find?_none label _ v (Option.map_eq_none'.mp h)

/-- The checked conversion never fails: registry factors are nonzero. -/
lemma set_value_conv_checked_eq (q : Fin 5) (label : String) (v : ℚ) :
    set_value_conv_checked q label v = some (set_value_conv q label v) := by
  unfold set_value_conv_checked set_value_conv
  generalize hL : units_vector q = L
  have hnz : ∀ e ∈ L, e.2 ≠ 0 := by
    intro e he
    exact ne_of_gt (units_vector_pos q e (hL ▸ he))
  clear hL
  induction L generalizing v with
  | nil => rfl
  | cons a L ih =>
    rw [List.foldl_cons, List.foldl_cons]
    have ha : a.2 ≠ 0 := hnz a (List.mem_cons_self a L)
    cases hc : (a.1 == label) with
    | true =>
      simp only [Option.some_bind, hc, if_true, checked_div, ha, if_false]
      exact ih _ (fun e he => hnz e (List.mem_cons_of_mem a he))
    | false =>
      simp only [Option.some_bind, hc, Bool.false_eq_true, if_false]
      exact ih _ (fun e he => hnz e (List.mem_cons_of_mem a he))

/-- The checked `set_value` never fails and agrees with `set_value`. -/
lemma set_value_checked_eq (u : Fin 5 → String) (t : Fin 5 → Option ℚ) (q : Fin 5)
    (v : ℚ) (empty : Bool) :
    set_value_checked u t q v empty = some (set_value u t q v empty) := by
  cases empty <;> simp [set_value_checked, set_value, set_value_conv_checked_eq]

/-- The doubling loop produces the single bit of the target row. -/
lemma mask_rows_current_enum (p : Fin 5) : mask_rows (current_enum p.val) = {p} := by
  fin_cases p <;> decide

/-- `get_value` only looks at the row's text and unit selection. -/
lemma get_value_congr {s1 s2 : FormState} (q : Fin 5)
    (ht : s1.texts q = s2.texts q) (hu : s1.unitSel q = s2.unitSel q) :
    get_value s1 q = get_value s2 q := by
  unfold get_value
  rw [ht, hu]

/-- Reading back a field that holds the display form of canonical value `v`
returns `v` (the scale cancels). -/
lemma get_value_of_conv_text {s : FormState} {q : Fin 5} {v sc : ℚ}
    (hsc : lookup_scale q (s.unitSel q) = some sc)
    (ht : s.texts q = some (set_value_conv q (s.unitSel q) v)) :
    get_value s q = some v := by
  unfold get_value
  rw [hsc, ht]
  have hne : sc ≠ 0 := ne_of_gt (lookup_scale_pos hsc)
  simp [set_value_conv_of_lookup hsc, Option.map_some]
  rw [mul_comm]
  exact div_mul_cancel₀ v hne

/-- The first registry entry whose label is the label of a member of the
list is that member, when labels are pairwise distinct. -/
lemma find?_label_of_mem :
    ∀ (L : List (String × ℚ)) (e : String × ℚ), e ∈ L →
      L.Pairwise (fun a b => a.1 ≠ b.1) →
      L.find? (fun x => x.1 == e.1) = some e := by
  intro L
  induction L with
  | nil => intro e he _; exact absurd he (by simp)
  | cons a L ih =>
    intro e he hp
    rcases List.mem_cons.mp he with rfl | he'
    · rw [List.find?_cons]
      simp
    · have hne : a.1 ≠ e.1 := (List.pairwise_cons.mp hp).1 e he'
      rw [List.find?_cons, beq_eq_false_iff_ne.mpr hne]
      exact ih e he' (List.pairwise_cons.mp hp).2

/-! ### Concrete scenario states -/

/-- Mass = 10 grams, molar mass = 2 /g/mol, other rows empty. -/
def stMassMM : FormState :=
  ⟨![some 10, some 2, none, none, none], canonLabels, blackLabels⟩

/-- Mass = 10 g, molar mass = 2 /g/mol, volume = 1 L. -/
def stMassMMVol : FormState :=
  ⟨![some 10, some 2, none, some 1, none], canonLabels, blackLabels⟩

/-- Only volume = 1 L present. -/
def stVolOnly : FormState :=
  ⟨![none, none, none, some 1, none], canonLabels, blackLabels⟩

/-- Volume = 2 L and molarity = 3 M present, everything else empty. -/
def stVolMolarity : FormState :=
  ⟨![none, none, none, some 2, some 3], canonLabels, blackLabels⟩

/-- Every field holds 5, but the selected unit label is in no registry. -/
def stBogusUnit : FormState :=
  ⟨![some 5, some 5, some 5, some 5, some 5], fun _ => "parsecs", blackLabels⟩

/-! ### Claims -/

/-- Claim C1, counterexample.  With Mass = 10 g and MolarMass = 2 /g/mol
and everything else absent, a Calculate on Moles leaves the Volume and
Molarity rows marked red (missing): the moles branch never clears
`bad_font_condition`, so the claim's "leaves no quantity marked missing"
is false on this input. -/
theorem c1_counterexample :
    (calculate_form stMassMM 2).map (fun s => (s.colours 3, s.colours 4))
      = some (Colour.red, Colour.red) := by
  simp [calculate_form, apply_colours, calculate_cb, get_value, lookup_scale,
    units_vector, stMassMM, canonLabels, List.find?, set_value, set_value_conv,
    preclear_texts, preclear_good, mask_rows_current_enum, xor_rows, Function.update]
  decide

/-- Claim C1 (amended): with Mass = 10 g, MolarMass = 2 /g/mol and Moles,
Volume, Molarity absent, Calculate on Moles sets Moles to 5 = mass/molarMass,
clears the Volume and Molarity fields to empty, marks exactly Mass and
MolarMass as used (green), and marks Volume and Molarity as missing (red);
the Moles row itself shows blue. -/
theorem c1_amended :
    (calculate_form stMassMM 2).map
      (fun s => (s.texts 0, s.texts 1, s.texts 2, s.texts 3, s.texts 4,
        s.colours 0, s.colours 1, s.colours 2, s.colours 3, s.colours 4))
      = some (some 10, some 2, some 5, none, none,
          Colour.green, Colour.green, Colour.blue, Colour.red, Colour.red) := by
  simp [calculate_form, apply_colours, calculate_cb, get_value, lookup_scale,
    units_vector, stMassMM, canonLabels, List.find?, set_value, set_value_conv,
    preclear_texts, preclear_good, mask_rows_current_enum, xor_rows, Function.update]
  norm_num
  decide

/-- Claim C2: with Mass = 10 g, MolarMass = 2 /g/mol, Volume = 1 L and
Moles, Molarity absent, Calculate on Molarity sets Molarity to 5 =
(mass/molarMass)/volume, additionally sets Moles to 5 (the secondary
update), marks Mass, MolarMass and Volume used (green), and the missing
set is empty. -/
theorem c2_molarity_scenario :
    (calculate_form stMassMMVol 4).map
      (fun s => (s.texts 4, s.texts 2, s.colours 0, s.colours 1, s.colours 3, s.colours 4))
      = some (some 5, some 5, Colour.green, Colour.green, Colour.green, Colour.blue)
    ∧ (calculate_cb stMassMMVol 4).map CalcResult.bad = some ∅ := by
  constructor
  · simp [calculate_form, apply_colours, calculate_cb, get_value, lookup_scale,
      units_vector, stMassMMVol, canonLabels, List.find?, set_value, set_value_conv,
      preclear_texts, preclear_good, mask_rows_current_enum, xor_rows, Function.update]
    norm_num
  · simp [calculate_cb, get_value, lookup_scale, units_vector, stMassMMVol,
      canonLabels, List.find?, set_value, set_value_conv, preclear_texts, preclear_good,
      mask_rows_current_enum, xor_rows, Function.update]

/-- Claim C3: for every quantity, every registry unit of that quantity and
every canonical value v > 0, converting to canonical units (`get_value`'s
multiplication by the factor) and back (`set_value`'s division) returns v
exactly; the label also looks up to exactly its declared factor. -/
theorem c3_unit_roundtrip (q : Fin 5) (e : String × ℚ) (he : e ∈ units_vector q)
    (v : ℚ) (_hv : 0 < v) :
    lookup_scale q e.1 = some e.2 ∧ set_value_conv q e.1 (e.2 * v) = v := by
  have hlk : lookup_scale q e.1 = some e.2 := by
    unfold lookup_scale
    rw [find?_label_of_mem (units_vector q) e he (units_vector_labels_unique q)]
    rfl
  refine ⟨hlk, ?_⟩
  rw [set_value_conv_of_lookup hlk]
  exact mul_div_cancel_left₀ v (ne_of_gt (units_vector_pos q e he))

/-- Witness for C3 at quantity Mass, unit grams, v = 5. -/
theorem c3_witness :
    ("grams", (1 : ℚ)) ∈ units_vector 0 ∧ (0 : ℚ) < 5 ∧
    (lookup_scale 0 "grams" = some 1 ∧ set_value_conv 0 "grams" (1 * 5) = 5) := by
  have hm : ("grams", (1 : ℚ)) ∈ units_vector 0 := by simp [units_vector]
  exact ⟨hm, by norm_num, c3_unit_roundtrip 0 ("grams", 1) hm 5 (by norm_num)⟩

/-- Claim C4, counterexample.  Target Moles with Volume = 2 L and
Molarity = 3 M present: the final red mask still contains the target bit
(Moles was absent and the moles branch leaves `bad_font_condition`
untouched), so the red and blue masks are not disjoint. -/
theorem c4_counterexample :
    (calculate_cb stVolMolarity 2).map (fun r => (r.bad ∩ r.resMask, r.resMask))
      = some ({2}, {2})
    ∧ ({2} : Finset (Fin 5)) ≠ (∅ : Finset (Fin 5)) := by
  constructor
  · simp [calculate_cb, get_value, lookup_scale, units_vector, stVolMolarity,
      canonLabels, List.find?, set_value, set_value_conv, preclear_texts, preclear_good,
      mask_rows_current_enum, xor_rows, Function.update]
    decide
  · decide

/-- Claim C5, counterexample.  Target Molarity with only Volume = 1 L
present: Volume ends green (it is present, hence "used"), and Mass ends
red, contradicting the claim that Volume is marked missing and the other
non-target rows stay neutral. -/
theorem c5_counterexample :
    (calculate_form stVolOnly 4).map (fun s => (s.colours 3, s.colours 0))
      = some (Colour.green, Colour.red) := by
  simp [calculate_form, apply_colours, calculate_cb, get_value, lookup_scale,
    units_vector, stVolOnly, canonLabels, List.find?, set_value, set_value_conv,
    preclear_texts, preclear_good, mask_rows_current_enum, xor_rows, Function.update]

/-- Claim C5 (amended): when the target is Molarity and only Volume is
present, no derived value is written (Molarity stays blank and every other
field is unchanged), Volume is marked used (green), Mass, MolarMass and
Moles are marked missing (red), and the Molarity row shows blue. -/
theorem c5_amended :
    (calculate_form stVolOnly 4).map
      (fun s => (s.texts 0, s.texts 1, s.texts 2, s.texts 3, s.texts 4,
        s.colours 0, s.colours 1, s.colours 2, s.colours 3, s.colours 4))
      = some (none, none, none, some 1, none,
          Colour.red, Colour.red, Colour.red, Colour.green, Colour.blue) := by
  simp [calculate_form, apply_colours, calculate_cb, get_value, lookup_scale,
    units_vector, stVolOnly, canonLabels, List.find?, set_value, set_value_conv,
    preclear_texts, preclear_good, mask_rows_current_enum, xor_rows, Function.update]

/-- Claim C9, counterexample.  With the unknown unit label "parsecs"
selected, reading a field does not pass the value through as if the scale
factor were 1: the lookup loop in `get_value` finds no entry and the
function ends without returning (undefined behaviour, modelled as `none`),
so the read of a field holding 5 is not `some 5`. -/
theorem c9_counterexample :
    get_value stBogusUnit 0 = none ∧ (none : Option ℚ) ≠ some 5 := by
  constructor
  · simp [get_value, stBogusUnit, lookup_scale, units_vector, List.find?]
  · simp

/-- Claim C9 (amended): for a unit label not in the quantity's registry,
the write direction (`set_value`'s conversion) silently passes the value
through unchanged, as if the factor were 1, and no error is signalled; the
read direction (`get_value`), however, reaches the end of a non-void
function without returning (undefined behaviour, modelled as `none`)
instead of passing the value through. -/
theorem c9_amended (s : FormState) (q : Fin 5)
    (h : lookup_scale q (s.unitSel q) = none) :
    get_value s q = none ∧ ∀ v : ℚ, set_value_conv q (s.unitSel q) v = v := by
  constructor
  · unfold get_value
    rw [h]
    rfl
  · intro v
    exact set_value_conv_of_lookup_none h v

/-- Witness for C9 at the "parsecs" state and v = 5. -/
theorem c9_witness :
    get_value stBogusUnit 0 = none ∧ set_value_conv 0 (stBogusUnit.unitSel 0) 5 = 5 := by
  have h : lookup_scale 0 (stBogusUnit.unitSel 0) = none := by
    simp [stBogusUnit, lookup_scale, units_vector, List.find?]
  exact ⟨(c9_amended stBogusUnit 0 h).1, (c9_amended stBogusUnit 0 h).2 5⟩

/-- Claim C10: the outcome of a calculation is a function of the row
texts, the selected units and the target row only; in particular two form
states differing in any other component (the label colours) produce
identical new texts, identical cleared fields and identical
classifications. -/
theorem c10_deterministic (s1 s2 : FormState) (p : Fin 5)
    (ht : s1.texts = s2.texts) (hu : s1.unitSel = s2.unitSel) :
    calculate_form s1 p = calculate_form s2 p := by
  cases s1 with | mk t1 u1 c1 =>
  cases s2 with | mk t2 u2 c2 =>
  obtain rfl : t1 = t2 := ht
  obtain rfl : u1 = u2 := hu
  rfl

/-- A state with all labels black. -/
def stColsA : FormState :=
  ⟨![some 1, some 2, none, none, none], canonLabels, blackLabels⟩

/-- The same texts and units as `stColsA`, but all labels red. -/
def stColsB : FormState :=
  ⟨![some 1, some 2, none, none, none], canonLabels, fun _ => Colour.red⟩

/-- Witness for C10: two states differing only in their colours. -/
theorem c10_witness : calculate_form stColsA 0 = calculate_form stColsB 0 :=
  c10_deterministic stColsA stColsB 0 rfl rfl

/-- Computing Mass when moles and molar mass are the available inputs (and
volume, molarity are not both present): the target is blanked by the
pre-step, then set to moles · molarMass; every other field is untouched. -/
lemma calc_mass_from_moles (s : FormState) (V0 V1 V2 V3 V4 : ℚ)
    (h0 : get_value s 0 = some V0) (h1 : get_value s 1 = some V1)
    (h2 : get_value s 2 = some V2) (h3 : get_value s 3 = some V3)
    (h4 : get_value s 4 = some V4)
    (hv0 : V0 ≠ 0) (hv1 : V1 ≠ 0) (hv2 : V2 ≠ 0) (hvm : ¬(V3 ≠ 0 ∧ V4 ≠ 0)) :
    ∃ s1, calculate_form s 0 = some s1 ∧
      s1.texts 0 = some (set_value_conv 0 (s.unitSel 0) (V2 * V1)) ∧
      (∀ i : Fin 5, i ≠ 0 → s1.texts i = s.texts i) ∧
      s1.unitSel = s.unitSel := by
  unfold calculate_form calculate_cb
  rw [h0, h1, h2, h3, h4]
  simp only [Option.some_bind, Fin.val_zero]
  simp only [hv0, hv1, hv2, hvm, not_false_eq_true, if_true, if_false, ite_not,
    preclear_texts, set_value, Bool.false_eq_true, ite_false, ite_true,
    eq_self_iff_true, ne_eq, Option.map_some]
  refine ⟨_, rfl, ?_, ?_, rfl⟩
  · simp [Function.update_same]
  · intro i hi
    simp [Function.update_noteq hi]

/-- Claim C7: a nonzero target value is blanked and removed from the
present (green) set by the pre-step before any derivation; consequently,
with Moles and MolarMass populated (and Volume, Molarity not both
present), calculating Mass twice from an initially populated Mass yields
Mass = Moles · MolarMass both times. -/
theorem c7_preclear_idempotence :
    (∀ (t : Fin 5 → Option ℚ) (g : Finset (Fin 5)) (p : Fin 5) (c : ℚ),
        c ≠ 0 → p ∈ g → preclear_texts t p c p = none ∧ p ∉ preclear_good g p c)
    ∧ (∀ (s : FormState) (V0 V1 V2 V3 V4 : ℚ),
        get_value s 0 = some V0 → get_value s 1 = some V1 → get_value s 2 = some V2 →
        get_value s 3 = some V3 → get_value s 4 = some V4 →
        V0 ≠ 0 → V1 ≠ 0 → V2 ≠ 0 → ¬(V3 ≠ 0 ∧ V4 ≠ 0) →
        ∃ s1, calculate_form s 0 = some s1 ∧ get_value s1 0 = some (V2 * V1) ∧
          ∃ s2, calculate_form s1 0 = some s2 ∧ get_value s2 0 = some (V2 * V1)) := by
  constructor
  · intro t g p c hc hg
    constructor
    · unfold preclear_texts
      rw [if_pos hc]
      simp
    · unfold preclear_good
      rw [if_pos hc, mask_rows_current_enum]
      simp [xor_rows, hg]
  · intro s V0 V1 V2 V3 V4 h0 h1 h2 h3 h4 hv0 hv1 hv2 hvm
    obtain ⟨s1, hs1, ht0, hrest, hu⟩ :=
      calc_mass_from_moles s V0 V1 V2 V3 V4 h0 h1 h2 h3 h4 hv0 hv1 hv2 hvm
    obtain ⟨sc, hsc, -⟩ := Option.map_eq_some'.mp h0
    have hsc1 : lookup_scale 0 (s1.unitSel 0) = some sc := by rw [hu]; exact hsc
    have hg1 : get_value s1 0 = some (V2 * V1) :=
      get_value_of_conv_text hsc1 (by rw [hu]; exact ht0)
    have h1' : get_value s1 1 = some V1 :=
      (get_value_congr 1 (hrest 1 (by decide)) (congrFun hu 1)).trans h1
    have h2' : get_value s1 2 = some V2 :=
      (get_value_congr 2 (hrest 2 (by decide)) (congrFun hu 2)).trans h2
    have h3' : get_value s1 3 = some V3 :=
      (get_value_congr 3 (hrest 3 (by decide)) (congrFun hu 3)).trans h3
    have h4' : get_value s1 4 = some V4 :=
      (get_value_congr 4 (hrest 4 (by decide)) (congrFun hu 4)).trans h4
    obtain ⟨s2, hs2, ht0', hrest', hu'⟩ :=
      calc_mass_from_moles s1 (V2 * V1) V1 V2 V3 V4 hg1 h1' h2' h3' h4'
        (mul_ne_zero hv2 hv1) hv1 hv2 hvm
    have hsc2 : lookup_scale 0 (s2.unitSel 0) = some sc := by rw [hu', hu]; exact hsc
    have hg2 : get_value s2 0 = some (V2 * V1) :=
      get_value_of_conv_text hsc2 (by rw [hu']; exact ht0')
    exact ⟨s1, hs1, hg1, s2, hs2, hg2⟩

/-- Mass = 4 g, molar mass = 3 /g/mol, moles = 2 mol; volume, molarity
empty. -/
def stMolesMM : FormState :=
  ⟨![some 4, some 3, some 2, none, none], canonLabels, blackLabels⟩

/-- Witness for C7: the pre-step facts at a concrete field/mask, and the
double calculation at mass 4 g, molar mass 3 /g/mol, moles 2 mol. -/
theorem c7_witness :
    (preclear_texts (fun _ => (some 1 : Option ℚ)) 0 5 0 = none
      ∧ (0 : Fin 5) ∉ preclear_good {0} 0 5)
    ∧ ∃ s1, calculate_form stMolesMM 0 = some s1 ∧ get_value s1 0 = some ((2 : ℚ) * 3) ∧
        ∃ s2, calculate_form s1 0 = some s2 ∧ get_value s2 0 = some ((2 : ℚ) * 3) := by
  constructor
  · exact c7_preclear_idempotence.1 (fun _ => some 1) {0} 0 5 (by norm_num) (by decide)
  · exact c7_preclear_idempotence.2 stMolesMM 4 3 2 0 0
      (by simp [get_value, stMolesMM, lookup_scale, units_vector, canonLabels, List.find?])
      (by simp [get_value, stMolesMM, lookup_scale, units_vector, canonLabels, List.find?])
      (by simp [get_value, stMolesMM, lookup_scale, units_vector, canonLabels, List.find?])
      (by simp [get_value, stMolesMM, lookup_scale, units_vector, canonLabels, List.find?])
      (by simp [get_value, stMolesMM, lookup_scale, units_vector, canonLabels, List.find?])
      (by norm_num) (by norm_num) (by norm_num) (by simp)

/-- Claim C6: with Molarity as target, Volume and Moles present and the
mass & molarMass branch not applicable, the derived value is
moles / volume and the green mask is narrowed with the set {Volume, Mass}
(`RowEnum::volume | RowEnum::mass`, the source reusing the mass bit), so
the final used set is {Volume, Mass} ∩ present = {3} plus {0} exactly when
Mass is present. -/
theorem c6_molarity_from_moles (s : FormState) (V0 V1 V2 V3 V4 : ℚ)
    (h0 : get_value s 0 = some V0) (h1 : get_value s 1 = some V1)
    (h2 : get_value s 2 = some V2) (h3 : get_value s 3 = some V3)
    (h4 : get_value s 4 = some V4)
    (hv3 : V3 ≠ 0) (hv2 : V2 ≠ 0) (hnm : ¬(V0 ≠ 0 ∧ V1 ≠ 0)) :
    ∃ r, calculate_cb s 4 = some r ∧
      r.texts 4 = some (set_value_conv 4 (s.unitSel 4) (V2 / V3)) ∧
      r.good = (if V0 ≠ 0 then ({0, 3} : Finset (Fin 5)) else {3}) := by
  unfold calculate_cb
  rw [h0, h1, h2, h3, h4]
  simp only [Option.some_bind]
  simp only [hv3, hv2, hnm, not_false_eq_true, if_true, if_false, ite_true, ite_false,
    Bool.false_eq_true, set_value, ne_eq]
  refine ⟨_, rfl, ?_, ?_⟩
  · simp
  · by_cases hv0 : V0 = 0 <;> by_cases hv1 : V1 = 0 <;> by_cases hv4 : V4 = 0 <;>
      simp [preclear_good, xor_rows, mask_rows_current_enum, hv0, hv1, hv4] <;> decide

/-- Mass = 7 g, moles = 2 mol, volume = 4 L; molar mass and molarity
empty. -/
def stMolesVol : FormState :=
  ⟨![some 7, none, some 2, some 4, none], canonLabels, blackLabels⟩

/-- Witness for C6 at mass 7 g, moles 2 mol, volume 4 L: the mass bit, not
the moles bit, joins volume in the final green set. -/
theorem c6_witness :
    ∃ r, calculate_cb stMolesVol 4 = some r ∧
      r.texts 4 = some (set_value_conv 4 (stMolesVol.unitSel 4) (2 / 4)) ∧
      r.good = (if (7 : ℚ) ≠ 0 then ({0, 3} : Finset (Fin 5)) else {3}) :=
  c6_molarity_from_moles stMolesVol 7 0 2 4 0
    (by simp [get_value, stMolesVol, lookup_scale, units_vector, canonLabels, List.find?])
    (by simp [get_value, stMolesVol, lookup_scale, units_vector, canonLabels, List.find?])
    (by simp [get_value, stMolesVol, lookup_scale, units_vector, canonLabels, List.find?])
    (by simp [get_value, stMolesVol, lookup_scale, units_vector, canonLabels, List.find?])
    (by simp [get_value, stMolesVol, lookup_scale, units_vector, canonLabels, List.find?])
    (by norm_num) (by norm_num) (by simp)

set_option maxHeartbeats 1000000 in
/-- Claim C4 (amended): for every state and valid target 0..4, whenever the
calculation completes, the green (used) mask is disjoint from the red
(missing) mask and from the blue (result) mask, and the blue mask is
exactly the single target row; the red mask, however, may contain the
target bit (the blue colouring is applied last and repaints it). -/
theorem c4_amended (s : FormState) (p : Fin 5) (r : CalcResult)
    (h : calculate_cb s p = some r) :
    r.good ∩ r.bad = ∅ ∧ r.good ∩ r.resMask = ∅ ∧ r.resMask = {p} := by
  unfold calculate_cb at h
  fin_cases p
  all_goals (
    simp only [show (⟨0, by omega⟩ : Fin 5) = 0 from rfl,
      show (⟨1, by omega⟩ : Fin 5) = 1 from rfl, show (⟨2, by omega⟩ : Fin 5) = 2 from rfl,
      show (⟨3, by omega⟩ : Fin 5) = 3 from rfl,
      show (⟨4, by omega⟩ : Fin 5) = 4 from rfl] at h
    cases h0 : get_value s 0 with
    | none => rw [h0] at h; simp only [Option.none_bind] at h; exact Option.noConfusion h
    | some V0 =>
    rw [h0] at h
    simp only [Option.some_bind] at h
    cases h1 : get_value s 1 with
    | none => rw [h1] at h; simp only [Option.none_bind] at h; exact Option.noConfusion h
    | some V1 =>
    rw [h1] at h
    simp only [Option.some_bind] at h
    cases h2 : get_value s 2 with
    | none => rw [h2] at h; simp only [Option.none_bind] at h; exact Option.noConfusion h
    | some V2 =>
    rw [h2] at h
    simp only [Option.some_bind] at h
    cases h3 : get_value s 3 with
    | none => rw [h3] at h; simp only [Option.none_bind] at h; exact Option.noConfusion h
    | some V3 =>
    rw [h3] at h
    simp only [Option.some_bind] at h
    cases h4 : get_value s 4 with
    | none => rw [h4] at h; simp only [Option.none_bind] at h; exact Option.noConfusion h
    | some V4 =>
    rw [h4] at h
    simp only [Option.some_bind] at h
    simp only [preclear_good] at h
    rw [Option.some_inj] at h
    subst h
    dsimp only
    simp only [apply_ite (Prod.snd (α := Fin 5 → Option ℚ) (β := Finset (Fin 5) × Finset (Fin 5))),
      apply_ite (Prod.fst (α := Finset (Fin 5)) (β := Finset (Fin 5))),
      apply_ite (Prod.snd (α := Finset (Fin 5)) (β := Finset (Fin 5)))]
    split_ifs <;> decide)

/-- Witness for C4 at mass 4 g, molar mass 3 /g/mol, moles 2 mol,
target Mass. -/
theorem c4_witness :
    ∃ r, calculate_cb stMolesMM 0 = some r ∧
      (r.good ∩ r.bad = ∅ ∧ r.good ∩ r.resMask = ∅ ∧ r.resMask = {0}) := by
  have hs : (calculate_cb stMolesMM 0).isSome := by
    simp [calculate_cb, get_value, stMolesMM, lookup_scale, units_vector, canonLabels,
      List.find?]
  obtain ⟨r, hr⟩ := Option.isSome_iff_exists.mp hs
  exact ⟨r, hr, c4_amended stMolesMM 0 r hr⟩

set_option maxHeartbeats 2000000 in
/-- Claim C8: no division by zero is reachable.  The instrumented engine,
in which every division of the callback (the derivation expressions and
the unit-conversion division inside `set_value`) fails on a zero
denominator, agrees with the plain engine on every state and target; and
every registry scale factor is positive (hence nonzero). -/
theorem c8_no_division_by_zero :
    (∀ (s : FormState) (p : Fin 5), calculate_cb_checked s p = calculate_cb s p)
    ∧ ∀ (q : Fin 5), ∀ e ∈ units_vector q, (0 : ℚ) < e.2 := by
  refine ⟨?_, units_vector_pos⟩
  intro s p
  unfold calculate_cb_checked calculate_cb
  fin_cases p
  all_goals (
    simp only [show (⟨0, by omega⟩ : Fin 5) = 0 from rfl,
      show (⟨1, by omega⟩ : Fin 5) = 1 from rfl, show (⟨2, by omega⟩ : Fin 5) = 2 from rfl,
      show (⟨3, by omega⟩ : Fin 5) = 3 from rfl,
      show (⟨4, by omega⟩ : Fin 5) = 4 from rfl]
    cases h0 : get_value s 0 with
    | none => rfl
    | some V0 =>
    simp only [Option.some_bind]
    cases h1 : get_value s 1 with
    | none => rfl
    | some V1 =>
    simp only [Option.some_bind]
    cases h2 : get_value s 2 with
    | none => rfl
    | some V2 =>
    simp only [Option.some_bind]
    cases h3 : get_value s 3 with
    | none => rfl
    | some V3 =>
    simp only [Option.some_bind]
    cases h4 : get_value s 4 with
    | none => rfl
    | some V4 =>
    simp only [Option.some_bind]
    split_ifs <;>
      (simp_all only [checked_div, set_value_checked_eq, mul_eq_zero, ne_eq, not_or,
         not_false_eq_true, or_self, or_false, false_or, if_true, if_false, ite_true,
         ite_false, Option.some_bind, Option.map_some, and_false, false_and, and_true,
         true_and, true_or, or_true, not_true, not_not]
       try rfl))

/-- Witness for C8: agreement at a concrete state and the positivity of a
concrete registry factor. -/
theorem c8_witness :
    calculate_cb_checked stMassMM 2 = calculate_cb stMassMM 2 ∧ (0 : ℚ) < 1 := by
  refine ⟨c8_no_division_by_zero.1 stMassMM 2, ?_⟩
  exact c8_no_division_by_zero.2 0 ("grams", 1) (by simp [units_vector])

end MolarityCalc
